import Mathlib

/-!
Verification of the odc-colab repository's credential-refreshing loader
(`src/earthengine.py`, class `Datacube`) and of two helpers of
`src/odc_colab.py` (`build_datacube_db_url` and the environment-variable
phase of `odc_colab_init`), as a shallow embedding in Lean 4.

Modelling choices:
* Python exceptions are values of `PyError`; a call to the underlying
  engine (`super().load`) is one element of a finite list of `Attempt`s,
  consumed in order by successive attempts.
* The process-wide environment (`os.environ`) is a function
  `String → Option String`.
* The external token source (`credentials.refresh` followed by reading
  `credentials.token`) is a function `Nat → String` indexed by the number
  of refresh calls made so far.
* Python's implicit `return None` on falling out of a function is the
  `LoadResult.pyNone` outcome; `LoadResult.outOfAttempts` marks that the
  loader demanded more engine attempts than the supplied list contains,
  which is how unbounded retrying shows up over a finite trace.
-/

/-- Whether the first list of characters starts the second one. -/
def strHeadMatches : List Char → List Char → Bool
  | [], _ => true
  | _ :: _, [] => false
  | a :: as, b :: bs => a = b && strHeadMatches as bs

/-- Python `str.find`: the index of the first occurrence of `sub` in `s`
(by code points), or `-1` when `sub` does not occur. -/
def pyFind (s sub : String) : Int :=
  match (List.range (s.data.length + 1)).find?
      (fun i => strHeadMatches sub.data (s.data.drop i)) with
  | some i => (i : Int)
  | none => -1

/-- The literal `'"UNAUTHENTICATED"'` marker searched for in
`error.args[0]` at `src/earthengine.py:52`, quotes included. -/
def UNAUTH_MARKER : String := "\"UNAUTHENTICATED\""

/-- Exceptions relevant to `Datacube.load`: `RasterioIOError` (carrying
`args[0]`, its message) versus every other `Exception`. -/
inductive PyError where
  | rasterioIOError (msg : String)
  | otherError (msg : String)
deriving DecidableEq, Repr

/-- One outcome of a call to the underlying engine `super().load`:
either a returned dataset or a raised exception. -/
inductive Attempt (α : Type) where
  | ok (v : α)
  | raise (e : PyError)
deriving DecidableEq, Repr

/-- The observable outcome of `Datacube.load`: a returned dataset, the
implicit Python `None` return, a raised exception, or exhaustion of the
supplied finite list of engine attempts (the loader still retrying). -/
inductive LoadResult (α : Type) where
  | ok (v : α)
  | pyNone
  | raised (e : PyError)
  | outOfAttempts
deriving DecidableEq, Repr

/-- The loader state of `src/earthengine.py`'s `Datacube`: `request` is
the presence of the refresh handle (`self.request is not None`),
`tokenSupply k` is the token produced by the `k`-th external
`credentials.refresh` call, `nrefresh` counts those calls, `token` is
`self.credentials.token`, and `env` is `os.environ`. -/
structure Datacube where
  request : Bool
  tokenSupply : Nat → String
  nrefresh : Nat
  token : Option String
  env : String → Option String

/-- `Datacube._refresh_credentials` (src/earthengine.py:59-64): with a
refresh handle, obtain a fresh token, publish it as `EEDA_BEARER` in the
environment and return `True`; otherwise return `False` untouched. -/
def Datacube._refresh_credentials (dc : Datacube) : Bool × Datacube :=
  if dc.request then
    let tok := dc.tokenSupply dc.nrefresh
    (true, { dc with
      token := some tok,
      nrefresh := dc.nrefresh + 1,
      env := fun k => if k = "EEDA_BEARER" then some tok else dc.env k })
  else
    (false, dc)

/-- `Datacube.load` (src/earthengine.py:41-57) over a finite list of
engine outcomes, one per `super().load` attempt. A `RasterioIOError`
whose message contains the marker triggers refresh-and-retry when the
refresh succeeds and a re-raise when it does not; a `RasterioIOError`
without the marker falls out of the `except` block (Python returns
`None`); any other exception is re-raised. -/
def Datacube.load {α : Type} (dc : Datacube) (engine : List (Attempt α)) :
    LoadResult α × Datacube :=
  match engine with
  | [] => (LoadResult.outOfAttempts, dc)
  | Attempt.ok v :: _ => (LoadResult.ok v, dc)
  | Attempt.raise (PyError.rasterioIOError msg) :: rest =>
    if pyFind msg UNAUTH_MARKER ≠ -1 then
      match Datacube._refresh_credentials dc with
      | (true, dcR) => Datacube.load dcR rest
      | (false, dcR) => (LoadResult.raised (PyError.rasterioIOError msg), dcR)
    else
      (LoadResult.pyNone, dc)
  | Attempt.raise (PyError.otherError msg) :: _ =>
    (LoadResult.raised (PyError.otherError msg), dc)

/-- The observable outcome of `Datacube.__init__`, alongside the facts
the construction claims are about: whether `ee.Authenticate()` (the
interactive flow) ran and whether `ee.ServiceAccountCredentials` was
built. -/
structure InitResult where
  dc : Datacube
  interactiveFlowRun : Bool
  serviceCredBuilt : Bool

/-- `Datacube.__init__` (src/earthengine.py:26-39): when the credentials
key-file path exists, publish its path as `GOOGLE_APPLICATION_CREDENTIALS`,
build a service-account credential and leave the refresh handle absent;
otherwise run the interactive flow, store a refresh handle and perform
one refresh immediately. -/
def Datacube.init (credentialsPathExists : Bool) (credentials : String)
    (tokenSupply : Nat → String) (env0 : String → Option String) : InitResult :=
  if credentialsPathExists then
    { dc := { request := false
              tokenSupply := tokenSupply
              nrefresh := 0
              token := Option.none
              env := fun k =>
                if k = "GOOGLE_APPLICATION_CREDENTIALS" then some credentials
                else env0 k }
      interactiveFlowRun := false
      serviceCredBuilt := true }
  else
    let dc1 : Datacube :=
      { request := true
        tokenSupply := tokenSupply
        nrefresh := 0
        token := Option.none
        env := env0 }
    { dc := (Datacube._refresh_credentials dc1).2
      interactiveFlowRun := true
      serviceCredBuilt := false }

/-- `build_datacube_db_url` (src/odc_colab.py:13-26). -/
def build_datacube_db_url (hostname username : String) (password : Option String)
    (dbname : String) (port : Nat) : String :=
  "postgresql://" ++ username ++
    (match password with
     | some p => ":" ++ p
     | none => "") ++
    "@" ++ hostname ++ ":" ++ toString port ++ "/" ++ dbname

/-- The default dictionary `env` built at src/odc_colab.py:245-249. -/
def defaultEnvDict : List (String × String) :=
  [("AWS_NO_SIGN_REQUEST", "YES"),
   ("CURL_CA_BUNDLE", "/etc/ssl/certs/ca-certificates.crt")]

/-- Python `del d[k]` on a dict modelled as an association list: a
`KeyError` (carrying the key) when the key is absent. -/
def dictDel (d : List (String × String)) (k : String) :
    Except String (List (String × String)) :=
  if d.any (fun p => p.1 = k) then Except.ok (d.filter (fun p => p.1 ≠ k))
  else Except.error k

/-- Python `d.update(kw)` for a `kw` with distinct keys: existing keys
keep their position with the new value, new keys are appended. -/
def dictUpdate (d kw : List (String × String)) : List (String × String) :=
  (d.map (fun p =>
    match kw.find? (fun q => q.1 = p.1) with
    | some q => (p.1, q.2)
    | none => p)) ++
  kw.filter (fun q => ¬ d.any (fun p => p.1 = q.1))

/-- The loop at src/odc_colab.py:257-260 writing each dictionary entry
into `os.environ`. -/
def setEnviron (environ : String → Option String)
    (d : List (String × String)) : String → Option String :=
  d.foldl (fun e p => fun k => if k = p.1 then some p.2 else e k) environ

/-- The environment-variable phase of `odc_colab_init`
(src/odc_colab.py:244-260): build the default dictionary, delete
`DATACUBE_DB_URL` from it when the caller supplied
`DATACUBE_CONFIG_PATH`, merge the keyword arguments, then write every
entry into `os.environ`. A raised `KeyError` is the `Except.error`
outcome, and in that case `os.environ` is never written. -/
def odc_colab_init_env (kwargs : List (String × String))
    (environ0 : String → Option String) :
    Except String (String → Option String) :=
  match (if kwargs.any (fun p => p.1 = "DATACUBE_CONFIG_PATH")
         then dictDel defaultEnvDict "DATACUBE_DB_URL"
         else Except.ok defaultEnvDict) with
  | Except.error k => Except.error k
  | Except.ok env1 => Except.ok (setEnviron environ0 (dictUpdate env1 kwargs))

/-- An empty environment used by concrete witnesses. -/
def env0c : String → Option String := fun _ => Option.none

/-- A concrete token supply used by concrete witnesses. -/
def ts0 : Nat → String := fun n => "token" ++ toString n

/-- A concrete service-account-mode loader (no refresh handle). -/
def dcService : Datacube :=
  { request := false
    tokenSupply := ts0
    nrefresh := 0
    token := Option.none
    env := env0c }

/-- A concrete interactive-mode loader (refresh handle present). -/
def dcInteractive : Datacube :=
  { request := true
    tokenSupply := ts0
    nrefresh := 0
    token := Option.none
    env := env0c }

/-- A concrete error message carrying the authentication marker. -/
def unauthMsg0 : String := "HTTP response code: 401, \"UNAUTHENTICATED\""

/-- A concrete `RasterioIOError` message without the marker. -/
def plainMsg : String := "error reading dataset: connection reset"

/-- One always-failing authenticated attempt, used for retry traces. -/
def unauthAttempt : Attempt Unit :=
  Attempt.raise (PyError.rasterioIOError unauthMsg0)

/-- C5: a first attempt that succeeds is returned unchanged with the
loader state (hence the refresh count and the environment) untouched. -/
theorem load_first_attempt_success {α : Type} (dc : Datacube) (v : α)
    (rest : List (Attempt α)) :
    Datacube.load dc (Attempt.ok v :: rest) = (LoadResult.ok v, dc) := rfl

/-- C10: `build_datacube_db_url` concatenates
`postgresql://user@host:port/dbname`, inserting `:password` directly
after the username exactly when a password is given. -/
theorem build_datacube_db_url_spec (hostname username dbname : String)
    (port : Nat) :
    (build_datacube_db_url hostname username Option.none dbname port =
      "postgresql://" ++ username ++ "@" ++ hostname ++ ":" ++ toString port
        ++ "/" ++ dbname) ∧
    (∀ password : String,
      build_datacube_db_url hostname username (some password) dbname port =
        "postgresql://" ++ username ++ ":" ++ password ++ "@" ++ hostname
          ++ ":" ++ toString port ++ "/" ++ dbname) := by
  constructor
  · simp [build_datacube_db_url, String.append_assoc]
  · intro password
    simp [build_datacube_db_url, String.append_assoc]

/-- C2: a first attempt failing with an UNAUTHENTICATED-marked
`RasterioIOError` while the refresh handle is present, followed by a
successful attempt, makes `load` return the retried result with exactly
one refresh performed. -/
theorem load_unauth_then_success {α : Type} (dc : Datacube) (msg : String)
    (v : α) (rest : List (Attempt α)) (hreq : dc.request = true)
    (hmsg : pyFind msg UNAUTH_MARKER ≠ -1) :
    Datacube.load dc
        (Attempt.raise (PyError.rasterioIOError msg) :: Attempt.ok v :: rest) =
      (LoadResult.ok v, (Datacube._refresh_credentials dc).2) ∧
    (Datacube._refresh_credentials dc).2.nrefresh = dc.nrefresh + 1 := by
  constructor
  · simp only [Datacube.load, if_pos hmsg]
    simp [Datacube._refresh_credentials, hreq]
  · simp [Datacube._refresh_credentials, hreq]

/-- C2 witness: the theorem applied to a concrete interactive loader, a
concrete marked message and a concrete retried result. -/
theorem load_unauth_then_success_witness :
    Datacube.load dcInteractive
        (Attempt.raise (PyError.rasterioIOError unauthMsg0)
          :: Attempt.ok () :: []) =
      (LoadResult.ok (), (Datacube._refresh_credentials dcInteractive).2) ∧
    (Datacube._refresh_credentials dcInteractive).2.nrefresh
      = dcInteractive.nrefresh + 1 :=
  load_unauth_then_success dcInteractive unauthMsg0 () [] rfl (by decide)

/-- C4: a first attempt failing with an UNAUTHENTICATED-marked
`RasterioIOError` while the refresh handle is absent makes `load` raise
the original error unchanged, with the loader state untouched and no
further engine attempt consumed. -/
theorem load_unauth_no_handle {α : Type} (dc : Datacube) (msg : String)
    (rest : List (Attempt α)) (hreq : dc.request = false)
    (hmsg : pyFind msg UNAUTH_MARKER ≠ -1) :
    Datacube.load dc (Attempt.raise (PyError.rasterioIOError msg) :: rest) =
      (LoadResult.raised (PyError.rasterioIOError msg), dc) := by
  simp only [Datacube.load, if_pos hmsg]
  simp [Datacube._refresh_credentials, hreq]

/-- C4 witness: the theorem applied to the concrete service-account
loader and a concrete marked message. -/
theorem load_unauth_no_handle_witness :
    Datacube.load dcService
        ([Attempt.raise (PyError.rasterioIOError unauthMsg0)]
          : List (Attempt Unit)) =
      (LoadResult.raised (PyError.rasterioIOError unauthMsg0), dcService) :=
  load_unauth_no_handle dcService unauthMsg0 [] rfl (by decide)

/-- C6: `_refresh_credentials` with the handle absent returns `false`
and leaves the state untouched (being a total function, it raises
nothing); with the handle present it returns `true`, stores the freshly
obtained bearer token and publishes it as `EEDA_BEARER` in the
process-wide environment. -/
theorem refresh_credentials_spec (dc : Datacube) :
    (dc.request = false → Datacube._refresh_credentials dc = (false, dc)) ∧
    (dc.request = true →
      (Datacube._refresh_credentials dc).1 = true ∧
      (Datacube._refresh_credentials dc).2.token
        = some (dc.tokenSupply dc.nrefresh) ∧
      (Datacube._refresh_credentials dc).2.env "EEDA_BEARER"
        = some (dc.tokenSupply dc.nrefresh)) := by
  constructor
  · intro h
    simp [Datacube._refresh_credentials, h]
  · intro h
    simp [Datacube._refresh_credentials, h]

/-- C6 witness: the theorem applied to the concrete service-account and
interactive loaders. -/
theorem refresh_credentials_spec_witness :
    Datacube._refresh_credentials dcService = (false, dcService) ∧
    (Datacube._refresh_credentials dcInteractive).1 = true ∧
    (Datacube._refresh_credentials dcInteractive).2.env "EEDA_BEARER"
      = some (ts0 0) := by
  refine ⟨(refresh_credentials_spec dcService).1 rfl, ?_, ?_⟩
  · exact ((refresh_credentials_spec dcInteractive).2 rfl).1
  · exact ((refresh_credentials_spec dcInteractive).2 rfl).2.2

/-- C7: construction with an existing key file builds a service-account
credential, publishes the key-file path as
`GOOGLE_APPLICATION_CREDENTIALS`, leaves the refresh handle absent,
never runs the interactive flow and performs no refresh; construction
without one always runs the interactive flow, stores a refresh handle
and performs exactly one refresh before any query. -/
theorem init_spec (pathExists : Bool) (credentials : String)
    (ts : Nat → String) (env0 : String → Option String) :
    (pathExists = true →
      (Datacube.init pathExists credentials ts env0).interactiveFlowRun = false ∧
      (Datacube.init pathExists credentials ts env0).serviceCredBuilt = true ∧
      (Datacube.init pathExists credentials ts env0).dc.request = false ∧
      (Datacube.init pathExists credentials ts env0).dc.env
          "GOOGLE_APPLICATION_CREDENTIALS" = some credentials ∧
      (Datacube.init pathExists credentials ts env0).dc.nrefresh = 0) ∧
    (pathExists = false →
      (Datacube.init pathExists credentials ts env0).interactiveFlowRun = true ∧
      (Datacube.init pathExists credentials ts env0).serviceCredBuilt = false ∧
      (Datacube.init pathExists credentials ts env0).dc.request = true ∧
      (Datacube.init pathExists credentials ts env0).dc.nrefresh = 1) := by
  constructor
  · intro h
    simp [Datacube.init, h]
  · intro h
    simp [Datacube.init, h, Datacube._refresh_credentials]

/-- C7 witness: the theorem applied to both concrete construction
modes. -/
theorem init_spec_witness :
    (Datacube.init true "/cred.json" ts0 env0c).interactiveFlowRun = false ∧
    (Datacube.init true "/cred.json" ts0 env0c).dc.env
        "GOOGLE_APPLICATION_CREDENTIALS" = some "/cred.json" ∧
    (Datacube.init false "/cred.json" ts0 env0c).interactiveFlowRun = true ∧
    (Datacube.init false "/cred.json" ts0 env0c).dc.nrefresh = 1 := by
  refine ⟨((init_spec true "/cred.json" ts0 env0c).1 rfl).1,
          ((init_spec true "/cred.json" ts0 env0c).1 rfl).2.2.2.1, ?_, ?_⟩
  · exact ((init_spec false "/cred.json" ts0 env0c).2 rfl).1
  · exact ((init_spec false "/cred.json" ts0 env0c).2 rfl).2.2.2

/-- Against an engine whose every attempt fails with an
UNAUTHENTICATED-marked `RasterioIOError`, a loader with a refresh handle
consumes every supplied attempt, performing one refresh per attempt, and
never raises: the recursion of src/earthengine.py:54 has no retry cap. -/
theorem load_replicate_unauth_aux {α : Type} (msg : String)
    (hmsg : pyFind msg UNAUTH_MARKER ≠ -1) :
    ∀ (n : Nat) (dc : Datacube), dc.request = true →
      (Datacube.load dc
          (List.replicate n (Attempt.raise (PyError.rasterioIOError msg))
            : List (Attempt α))).1 = LoadResult.outOfAttempts ∧
      (Datacube.load dc
          (List.replicate n (Attempt.raise (PyError.rasterioIOError msg))
            : List (Attempt α))).2.nrefresh = dc.nrefresh + n := by
  intro n
  induction n with
  | zero =>
    intro dc _
    exact ⟨rfl, rfl⟩
  | succ m ih =>
    intro dc hreq
    rw [List.replicate_succ]
    simp only [Datacube.load, if_pos hmsg]
    simp only [Datacube._refresh_credentials, hreq, if_true]
    have h2 := ih
      { request := true
        tokenSupply := dc.tokenSupply
        nrefresh := dc.nrefresh + 1
        token := some (dc.tokenSupply dc.nrefresh)
        env := fun k =>
          if k = "EEDA_BEARER" then some (dc.tokenSupply dc.nrefresh)
          else dc.env k } rfl
    refine ⟨h2.1, ?_⟩
    rw [h2.2]
    show dc.nrefresh + 1 + m = dc.nrefresh + (m + 1)
    omega

/-- C3 (amended): with a refresh handle present, a query that keeps
failing with an UNAUTHENTICATED-marked error after every refresh is
retried without any bound: for every `n`, `load` consumes all `n`
failing attempts, performs `n` refreshes, and has raised nothing — it
raises after no bounded number of retries. -/
theorem load_retries_unboundedly {α : Type} (dc : Datacube) (msg : String)
    (n : Nat) (hreq : dc.request = true)
    (hmsg : pyFind msg UNAUTH_MARKER ≠ -1) :
    (Datacube.load dc
        (List.replicate n (Attempt.raise (PyError.rasterioIOError msg))
          : List (Attempt α))).1 = LoadResult.outOfAttempts ∧
    (Datacube.load dc
        (List.replicate n (Attempt.raise (PyError.rasterioIOError msg))
          : List (Attempt α))).2.nrefresh = dc.nrefresh + n :=
  load_replicate_unauth_aux msg hmsg n dc hreq

/-- C3 witness: the amended theorem applied to the concrete interactive
loader and three consecutive marked failures. -/
theorem load_retries_unboundedly_witness :
    (Datacube.load dcInteractive (List.replicate 3 unauthAttempt)).1
      = LoadResult.outOfAttempts ∧
    (Datacube.load dcInteractive (List.replicate 3 unauthAttempt)).2.nrefresh
      = dcInteractive.nrefresh + 3 :=
  load_retries_unboundedly dcInteractive unauthMsg0 3 rfl (by decide)

/-- The claim of C3 specialised to the concrete interactive loader and a
persistently UNAUTHENTICATED-failing engine: some retry bound exists
after which `load` raises. -/
def loadRaisesAfterBoundedRetries : Prop :=
  ∃ N : Nat, ∃ e : PyError,
    (Datacube.load dcInteractive (List.replicate N unauthAttempt)).1
      = LoadResult.raised e

/-- C3 counterexample: no retry bound exists — however many consecutive
UNAUTHENTICATED failures the engine supplies, `load` never raises; it
keeps refreshing and retrying. -/
theorem load_has_no_retry_bound : ¬ loadRaisesAfterBoundedRetries := by
  rintro ⟨N, e, h⟩
  have h2 := (load_replicate_unauth_aux (α := Unit) unauthMsg0 (by decide)
    N dcInteractive rfl).1
  rw [show (List.replicate N unauthAttempt
        : List (Attempt Unit))
      = List.replicate N (Attempt.raise (PyError.rasterioIOError unauthMsg0))
    from rfl] at h
  rw [h2] at h
  exact LoadResult.noConfusion h

/-- C1 (code bug): a `RasterioIOError` without the UNAUTHENTICATED
marker is caught at src/earthengine.py:51, fails the marker test at line
52, and falls out of the `except` block — `load` silently returns
`None` instead of re-raising, with the loader state untouched. -/
theorem load_swallows_unmarked_rasterio_error :
    Datacube.load dcService
        ([Attempt.raise (PyError.rasterioIOError plainMsg)]
          : List (Attempt Unit)) =
      (LoadResult.pyNone, dcService) ∧
    pyFind plainMsg UNAUTH_MARKER = -1 := by
  have h : pyFind plainMsg UNAUTH_MARKER = -1 := by decide
  constructor
  · simp [Datacube.load, h]
  · exact h

/-- `_refresh_credentials` leaves every environment key other than
`EEDA_BEARER` unchanged. -/
theorem refresh_env_frame (dc : Datacube) (k : String)
    (hk : k ≠ "EEDA_BEARER") :
    (Datacube._refresh_credentials dc).2.env k = dc.env k := by
  by_cases hreq : dc.request
  · simp [Datacube._refresh_credentials, hreq, hk]
  · simp [Datacube._refresh_credentials, hreq]

/-- Construction leaves every environment key other than
`GOOGLE_APPLICATION_CREDENTIALS` and `EEDA_BEARER` unchanged. -/
theorem init_env_frame (pathExists : Bool) (credentials : String)
    (ts : Nat → String) (env0 : String → Option String) (k : String)
    (hk1 : k ≠ "GOOGLE_APPLICATION_CREDENTIALS") (hk2 : k ≠ "EEDA_BEARER") :
    (Datacube.init pathExists credentials ts env0).dc.env k = env0 k := by
  cases pathExists with
  | false =>
    have h := refresh_env_frame
      { request := true
        tokenSupply := ts
        nrefresh := 0
        token := Option.none
        env := env0 } k hk2
    simpa [Datacube.init] using h
  | true =>
    simp [Datacube.init, hk1]

/-- `load` leaves every environment key other than `EEDA_BEARER`
unchanged, whatever the engine outcomes are. -/
theorem load_env_frame {α : Type} (engine : List (Attempt α)) :
    ∀ (dc : Datacube) (k : String), k ≠ "EEDA_BEARER" →
      (Datacube.load dc engine).2.env k = dc.env k := by
  induction engine with
  | nil =>
    intro dc k _
    rfl
  | cons a rest ih =>
    intro dc k hk
    cases a with
    | ok v => rfl
    | raise e =>
      cases e with
      | otherError m => rfl
      | rasterioIOError msg =>
        by_cases hmsg : pyFind msg UNAUTH_MARKER ≠ -1
        · simp only [Datacube.load, if_pos hmsg]
          by_cases hreq : dc.request
          · simp only [Datacube._refresh_credentials, hreq, if_true]
            rw [ih _ k hk]
            simp [hk]
          · simp [Datacube._refresh_credentials, hreq]
        · simp [Datacube.load, hmsg]

/-- C8: the loader's only writes to the process-wide environment are
`EEDA_BEARER` (refresh with a handle present, hence also any `load`) and
`GOOGLE_APPLICATION_CREDENTIALS` (construction in service-account mode);
every other key is left exactly as found by refresh, construction and
load alike. -/
theorem loader_env_frame :
    (∀ (dc : Datacube) (k : String), k ≠ "EEDA_BEARER" →
      (Datacube._refresh_credentials dc).2.env k = dc.env k) ∧
    (∀ (pathExists : Bool) (credentials : String) (ts : Nat → String)
        (env0 : String → Option String) (k : String),
      k ≠ "GOOGLE_APPLICATION_CREDENTIALS" → k ≠ "EEDA_BEARER" →
      (Datacube.init pathExists credentials ts env0).dc.env k = env0 k) ∧
    (∀ (dc : Datacube) (engine : List (Attempt Unit)) (k : String),
      k ≠ "EEDA_BEARER" →
      (Datacube.load dc engine).2.env k = dc.env k) :=
  ⟨refresh_env_frame,
   fun pathExists credentials ts env0 k hk1 hk2 =>
     init_env_frame pathExists credentials ts env0 k hk1 hk2,
   fun dc engine k hk => load_env_frame engine dc k hk⟩

/-- C8 witness: the frame theorem applied to concrete states, a concrete
engine trace and the concrete unrelated key `PATH`. -/
theorem loader_env_frame_witness :
    (Datacube._refresh_credentials dcInteractive).2.env "PATH"
      = dcInteractive.env "PATH" ∧
    (Datacube.init true "/cred.json" ts0 env0c).dc.env "PATH" = env0c "PATH" ∧
    (Datacube.load dcInteractive
        (unauthAttempt :: Attempt.ok () :: [])).2.env "PATH"
      = dcInteractive.env "PATH" := by
  refine ⟨loader_env_frame.1 dcInteractive "PATH" (by decide), ?_, ?_⟩
  · exact loader_env_frame.2.1 true "/cred.json" ts0 env0c "PATH"
      (by decide) (by decide)
  · exact loader_env_frame.2.2 dcInteractive
      (unauthAttempt :: Attempt.ok () :: []) "PATH" (by decide)

/-- C9: whenever the keyword arguments of `odc_colab_init` contain the
key `DATACUBE_CONFIG_PATH`, the environment-variable phase raises
`KeyError('DATACUBE_DB_URL')` — the default dictionary never holds that
key — and no environment variable is set (the `Except.error` outcome
carries no updated environment). -/
theorem odc_colab_init_env_keyerror (kwargs : List (String × String))
    (environ0 : String → Option String)
    (h : kwargs.any (fun p => p.1 = "DATACUBE_CONFIG_PATH") = true) :
    odc_colab_init_env kwargs environ0 = Except.error "DATACUBE_DB_URL" := by
  simp only [odc_colab_init_env, h, if_true]
  rfl

/-- C9 witness: the theorem applied to concrete keyword arguments
containing `DATACUBE_CONFIG_PATH`. -/
theorem odc_colab_init_env_keyerror_witness :
    odc_colab_init_env [("DATACUBE_CONFIG_PATH", "/etc/datacube.conf")] env0c
      = Except.error "DATACUBE_DB_URL" :=
  odc_colab_init_env_keyerror
    [("DATACUBE_CONFIG_PATH", "/etc/datacube.conf")] env0c (by decide)
